import Mathlib

/-!
Verification of the reconciliation core of `cgatpipelines/tools/pipeline_testing.py`.

The development shallowly embeds:
  * `compute_file_metrics` (lines 316-355): metric collection dispatch;
  * the `job_finished` computation (lines 453-458): a fold of the completion
    check over the log files matching `<track>*.log`;
  * the classification and verdict logic of `compareCheckSums`
    (lines 486-541): intersection / difference of the path index sets,
    ordered peeling by the three policies (existence, then line count,
    then md5), value comparison with pandas semantics, and the OK/FAIL
    verdict;
  * the per-test loop of `compareCheckSums` (lines 449-476), including the
    `ValueError` raised when a reference file is absent;
  * the checksum normalisation performed by the external
    `cgat_file_apply.sh` helper (modelled from the spec, see below).

Tables (`pandas.DataFrame` indexed by path, columns `md5` and `nlines`) are
modelled as a finite key set plus a row-valued function; a missing cell
(pandas NaN) is `none`.  Pandas elementwise comparison semantics are kept:
NaN compares unequal to everything, including NaN itself.

Policy patterns are the configured suffix-fragment lists; the code joins the
fragments with a regex alternation and uses `re.search`, so a path matches a
policy when some fragment occurs inside the path (fragments are treated as
literal strings, as the configuration surface intends).
-/

/-- Does the character list start with the given pattern list? -/
def startsWithList : List Char → List Char → Bool
  | _, [] => true
  | [], _ :: _ => false
  | a :: as, b :: bs => a == b && startsWithList as bs

/-- Does the pattern list occur contiguously inside the haystack list? -/
def containsList : List Char → List Char → Bool
  | [], needle => needle.isEmpty
  | a :: t, needle => startsWithList (a :: t) needle || containsList t needle

/-- Substring occurrence on strings: models `re.search` with a literal
pattern fragment, which succeeds iff the fragment occurs anywhere in the
path. -/
def strContains (hay needle : String) : Bool :=
  containsList hay.toList needle.toList

/-- Match of the alternation regex built by joining the fragment list with
the regex union operator and searched with `re.search`
(lines 465, 469, 473): some fragment occurs inside the path. -/
def fragsMatch (frags : List String) (x : String) : Bool :=
  frags.any (fun f => strContains x f)

/-- Match against an optional policy: a falsy configuration value
(`None` or empty, lines 464, 468, 472) means the policy is absent and the
corresponding classification block is skipped, so no path matches it. -/
def policyMatch : Option (List String) → String → Bool
  | none, _ => false
  | some frags, x => fragsMatch frags x

/-- One row of the merged statistics table: the `md5` and `nlines` columns.
A cell is `none` when that metric was not computed for the file (a pandas
NaN cell). -/
structure FileRecord where
  md5 : Option String
  nlines : Option Nat
deriving DecidableEq

/-- A fingerprint table (`pandas.read_csv(..., index_col=0)`,
lines 478-484): the index set of paths plus the row contents.  The same
shape serves for the current run and for the reference snapshot. -/
structure FingerprintTable where
  keys : Finset String
  data : String → FileRecord

/-- The three per-track policy fragment lists fetched from `PARAMS`
(lines 463-473): `none` models a falsy configuration value, for which the
code skips the corresponding classification block. -/
structure Policies where
  regex_exist : Option (List String)
  regex_linecount : Option (List String)
  regex_md5 : Option (List String)

/-- Pandas elementwise equality of two cells: a NaN cell compares unequal
to everything, including another NaN; the elementwise `!=` used by the code
is the pointwise negation of this. -/
def pandasEq {α : Type} [DecidableEq α] : Option α → Option α → Bool
  | some a, some b => decide (a = b)
  | _, _ => false

/-- Line 486: `shared_files = set(cmp_data.index).intersection(ref_data.index)`. -/
def sharedFiles (cmp ref : FingerprintTable) : Finset String :=
  cmp.keys ∩ ref.keys

/-- Line 487: `missing = set(ref_data.index).difference(cmp_data.index)`. -/
def missingFiles (cmp ref : FingerprintTable) : Finset String :=
  ref.keys \ cmp.keys

/-- Line 488: `extra = set(cmp_data.index).difference(ref_data.index)`. -/
def extraFiles (cmp ref : FingerprintTable) : Finset String :=
  cmp.keys \ ref.keys

/-- Lines 493-500: with an existence policy, `same_exist` collects the
members of the working set matched by it; without one, `same_exist` is
empty. -/
def sameExist (regex_exist : Option (List String)) (different : Finset String) :
    Finset String :=
  match regex_exist with
  | some frags => different.filter (fun x => fragsMatch frags x)
  | none => ∅

/-- Lines 497-498: the working set after removing the paths matched by the
existence policy (unchanged when the policy is absent). -/
def afterExist (regex_exist : Option (List String)) (different : Finset String) :
    Finset String :=
  match regex_exist with
  | some frags => different.filter (fun x => !fragsMatch frags x)
  | none => different

/-- Lines 504-505: `check_lines`, the members of the working set matched by
the line-count policy. -/
def checkLines (regex_linecount : Option (List String)) (different : Finset String) :
    Finset String :=
  match regex_linecount with
  | some frags => different.filter (fun x => fragsMatch frags x)
  | none => ∅

/-- Lines 507-509: paths of `check_lines` whose `nlines` cells compare
unequal under the pandas elementwise `!=`. -/
def differentLines (regex_linecount : Option (List String))
    (cmp ref : FingerprintTable) (check_lines : Finset String) : Finset String :=
  match regex_linecount with
  | some _ => check_lines.filter
      (fun x => !pandasEq (cmp.data x).nlines (ref.data x).nlines)
  | none => ∅

/-- Lines 512-514: paths of `check_lines` whose `nlines` cells compare equal
under the pandas elementwise `==`. -/
def sameLines (regex_linecount : Option (List String))
    (cmp ref : FingerprintTable) (check_lines : Finset String) : Finset String :=
  match regex_linecount with
  | some _ => check_lines.filter
      (fun x => pandasEq (cmp.data x).nlines (ref.data x).nlines)
  | none => ∅

/-- Line 510: `different = different.difference(check_lines)` (unchanged
when the line-count policy is absent). -/
def afterLines (regex_linecount : Option (List String))
    (different check_lines : Finset String) : Finset String :=
  match regex_linecount with
  | some _ => different \ check_lines
  | none => different

/-- Lines 522-523: `check_md5`, the members of the remaining working set
matched by the md5 policy. -/
def checkMd5 (regex_md5 : Option (List String)) (different : Finset String) :
    Finset String :=
  match regex_md5 with
  | some frags => different.filter (fun x => fragsMatch frags x)
  | none => ∅

/-- Lines 525-527: paths of `check_md5` whose `md5` cells compare unequal
under the pandas elementwise `!=`. -/
def differentMd5 (regex_md5 : Option (List String))
    (cmp ref : FingerprintTable) (check_md5 : Finset String) : Finset String :=
  match regex_md5 with
  | some _ => check_md5.filter
      (fun x => !pandasEq (cmp.data x).md5 (ref.data x).md5)
  | none => ∅

/-- Lines 529-531: paths of `check_md5` whose `md5` cells compare equal
under the pandas elementwise `==`. -/
def sameMd5 (regex_md5 : Option (List String))
    (cmp ref : FingerprintTable) (check_md5 : Finset String) : Finset String :=
  match regex_md5 with
  | some _ => check_md5.filter
      (fun x => pandasEq (cmp.data x).md5 (ref.data x).md5)
  | none => ∅

/-- Lines 537-541: the verdict.  `OK` iff the job finished and the four
diagnostic sets are jointly empty, else `FAIL`. -/
def verdictStatus (job_finished : Bool)
    (missing extra different_md5 different_lines : Finset String) : String :=
  if job_finished &&
      (missing.card + extra.card + different_md5.card + different_lines.card == 0)
  then "OK" else "FAIL"

/-- The outcome of reconciling one test: the diagnostic path sets, the two
intermediate graded sets, the residual working set (`unclassified`, the
shared paths matched by no policy; tracked by the spec, left over by the
code), the completion flag and the verdict. -/
structure ReconciliationResult where
  shared : Finset String
  missing : Finset String
  extra : Finset String
  same_exist : Finset String
  check_lines : Finset String
  different_lines : Finset String
  same_lines : Finset String
  check_md5 : Finset String
  different_md5 : Finset String
  same_md5 : Finset String
  unclassified : Finset String
  job_finished : Bool
  status : String

/-- Lines 486-541 for one test: the classification and verdict logic of
`compareCheckSums`, as a function of the current table, the reference
snapshot, the three policies and the completion flag. -/
def compareOne (cmp ref : FingerprintTable) (pol : Policies)
    (job_finished : Bool) : ReconciliationResult :=
  let shared := sharedFiles cmp ref
  let missing := missingFiles cmp ref
  let extra := extraFiles cmp ref
  let same_exist := sameExist pol.regex_exist shared
  let d1 := afterExist pol.regex_exist shared
  let cl := checkLines pol.regex_linecount d1
  let dl := differentLines pol.regex_linecount cmp ref cl
  let sl := sameLines pol.regex_linecount cmp ref cl
  let d2 := afterLines pol.regex_linecount d1 cl
  let cm := checkMd5 pol.regex_md5 d2
  let dm := differentMd5 pol.regex_md5 cmp ref cm
  let sm := sameMd5 pol.regex_md5 cmp ref cm
  ⟨shared, missing, extra, same_exist, cl, dl, sl, cm, dm, sm, d2 \ cm,
    job_finished, verdictStatus job_finished missing extra dm dl⟩

/-- Lines 453-458: `job_finished` starts `True` and is conjoined with the
completion check of every log file matching `<track>*.log`; the completion
check itself (`iotools.is_complete`, an external collaborator) is a
parameter. -/
def jobFinished (isComplete : String → Bool) (logfiles : List String) : Bool :=
  logfiles.foldl (fun acc logfile => acc && isComplete logfile) true

/-- What `compute_file_metrics` does: either touch an empty output file
without scanning the filesystem, or run the `find` pipeline that scans the
build directory (excluding the report subtree and underscore-named
artifacts) for files whose paths end with one of the suffix fragments. -/
inductive MetricAction where
  | touchEmpty : MetricAction
  | runFind : String → List String → MetricAction
deriving DecidableEq

/-- Lines 316-355: the dispatch of `compute_file_metrics`.  A `None` or
empty suffix list touches an empty output file and returns (lines 320-323);
otherwise the `find`-based statement is run for the given metric over the
suffix alternation. -/
def compute_file_metrics (metric : String) (suffixes : Option (List String)) :
    MetricAction :=
  match suffixes with
  | none => MetricAction.touchEmpty
  | some s => if s.length == 0 then MetricAction.touchEmpty
              else MetricAction.runFind metric s

/-- One iteration of the `compareCheckSums` loop (lines 449-476), as data:
the track name, the result of the `glob` over `<track>*.log`, whether the
reference file `<track>.ref` exists, the two tables, and the policies. -/
structure TestCase where
  track : String
  logfiles : List String
  refExists : Bool
  cmpTable : FingerprintTable
  refTable : FingerprintTable
  pol : Policies

/-- The reconciliation performed for one test inside the loop, given the
external completion check. -/
def processTest (isComplete : String → Bool) (t : TestCase) :
    ReconciliationResult :=
  compareOne t.cmpTable t.refTable t.pol (jobFinished isComplete t.logfiles)

/-- Lines 449-476: the per-test loop of `compareCheckSums`.  Each test with
an existing reference contributes an output row; a test whose reference
file is absent raises `ValueError` (line 476), which propagates out of the
loop: the rows already written stay, the failing test and every sibling
after it produce none.  The result is the list of rows written and the
error, if one was raised. -/
def compareCheckSumsLoop (isComplete : String → Bool) :
    List TestCase → List (String × ReconciliationResult) × Option String
  | [] => ([], none)
  | t :: rest =>
    if t.refExists then
      let r := processTest isComplete t
      let tail := compareCheckSumsLoop isComplete rest
      ((t.track, r) :: tail.1, tail.2)
    else
      ([], some ("no reference data defined for " ++ t.track))

/-- Modelled from the spec: the checksum tool invoked by `buildCheckSums`
(`cgat_file_apply.sh` with metric `md5sum`, lines 336-373) lives under
`test_scriptsdir` and is not part of the sources here.  Per the spec,
checksum computation is content-normalised: lines beginning with the
designated comment marker are removed before hashing.  A file is a list of
lines; this is the normalisation step. -/
def stripComments (marker : String) (lines : List String) : List String :=
  lines.filter (fun l => !startsWithList l.toList marker.toList)

/-- Modelled from the spec: a deterministic digest of one line (stands for
the md5 state update; any function of the content works for the
comparison-level properties). -/
def hashLine (s : String) : Nat :=
  s.foldl (fun h c => (h * 31 + c.toNat) % 1000000007) 7

/-- Modelled from the spec: a deterministic digest of a sequence of lines. -/
def hashLines (lines : List String) : Nat :=
  lines.foldl (fun h l => (h * 131 + hashLine l) % 1000000007) 11

/-- Modelled from the spec: the checksum of a file is the digest of its
content after the comment lines are removed. -/
def fileChecksum (marker : String) (lines : List String) : Nat :=
  hashLines (stripComments marker lines)

/-- Pointwise update of the stored checksum of one path: the key set and
every other cell of the table are untouched. -/
def setMd5 (T : FingerprintTable) (p : String) (v : Option String) :
    FingerprintTable :=
  ⟨T.keys, fun q => if q = p then ⟨v, (T.data q).nlines⟩ else T.data q⟩

theorem mem_sameExist (e : Option (List String)) (s : Finset String) (p : String) :
    p ∈ sameExist e s ↔ p ∈ s ∧ policyMatch e p = true := by
  cases e <;> simp [sameExist, policyMatch]

theorem mem_afterExist (e : Option (List String)) (s : Finset String) (p : String) :
    p ∈ afterExist e s ↔ p ∈ s ∧ policyMatch e p = false := by
  cases e <;> simp [afterExist, policyMatch]

theorem mem_checkLines (l : Option (List String)) (s : Finset String) (p : String) :
    p ∈ checkLines l s ↔ p ∈ s ∧ policyMatch l p = true := by
  cases l <;> simp [checkLines, policyMatch]

theorem mem_afterLines (l : Option (List String)) (s : Finset String) (p : String) :
    p ∈ afterLines l s (checkLines l s) ↔ p ∈ s ∧ policyMatch l p = false := by
  cases l with
  | none => simp [afterLines, policyMatch]
  | some a =>
    cases hf : fragsMatch a p <;>
      simp [afterLines, checkLines, policyMatch, hf]

theorem mem_checkMd5 (m : Option (List String)) (s : Finset String) (p : String) :
    p ∈ checkMd5 m s ↔ p ∈ s ∧ policyMatch m p = true := by
  cases m <;> simp [checkMd5, policyMatch]

theorem mem_differentLines (l : Option (List String)) (cmp ref : FingerprintTable)
    (s : Finset String) (p : String) :
    p ∈ differentLines l cmp ref (checkLines l s) ↔
      p ∈ checkLines l s ∧ pandasEq (cmp.data p).nlines (ref.data p).nlines = false := by
  cases l <;> simp [differentLines, checkLines]

theorem mem_sameLines (l : Option (List String)) (cmp ref : FingerprintTable)
    (s : Finset String) (p : String) :
    p ∈ sameLines l cmp ref (checkLines l s) ↔
      p ∈ checkLines l s ∧ pandasEq (cmp.data p).nlines (ref.data p).nlines = true := by
  cases l <;> simp [sameLines, checkLines]

theorem mem_differentMd5 (m : Option (List String)) (cmp ref : FingerprintTable)
    (s : Finset String) (p : String) :
    p ∈ differentMd5 m cmp ref (checkMd5 m s) ↔
      p ∈ checkMd5 m s ∧ pandasEq (cmp.data p).md5 (ref.data p).md5 = false := by
  cases m <;> simp [differentMd5, checkMd5]

theorem mem_sameMd5 (m : Option (List String)) (cmp ref : FingerprintTable)
    (s : Finset String) (p : String) :
    p ∈ sameMd5 m cmp ref (checkMd5 m s) ↔
      p ∈ checkMd5 m s ∧ pandasEq (cmp.data p).md5 (ref.data p).md5 = true := by
  cases m <;> simp [sameMd5, checkMd5]

theorem compareOne_shared (cmp ref : FingerprintTable) (pol : Policies) (jf : Bool) :
    (compareOne cmp ref pol jf).shared = sharedFiles cmp ref := rfl

theorem compareOne_missing (cmp ref : FingerprintTable) (pol : Policies) (jf : Bool) :
    (compareOne cmp ref pol jf).missing = missingFiles cmp ref := rfl

theorem compareOne_extra (cmp ref : FingerprintTable) (pol : Policies) (jf : Bool) :
    (compareOne cmp ref pol jf).extra = extraFiles cmp ref := rfl

theorem compareOne_same_exist (cmp ref : FingerprintTable) (pol : Policies) (jf : Bool) :
    (compareOne cmp ref pol jf).same_exist =
      sameExist pol.regex_exist (sharedFiles cmp ref) := rfl

theorem compareOne_check_lines (cmp ref : FingerprintTable) (pol : Policies) (jf : Bool) :
    (compareOne cmp ref pol jf).check_lines =
      checkLines pol.regex_linecount (afterExist pol.regex_exist (sharedFiles cmp ref)) := rfl

theorem compareOne_different_lines (cmp ref : FingerprintTable) (pol : Policies) (jf : Bool) :
    (compareOne cmp ref pol jf).different_lines =
      differentLines pol.regex_linecount cmp ref
        (checkLines pol.regex_linecount (afterExist pol.regex_exist (sharedFiles cmp ref))) := rfl

theorem compareOne_same_lines (cmp ref : FingerprintTable) (pol : Policies) (jf : Bool) :
    (compareOne cmp ref pol jf).same_lines =
      sameLines pol.regex_linecount cmp ref
        (checkLines pol.regex_linecount (afterExist pol.regex_exist (sharedFiles cmp ref))) := rfl

theorem compareOne_check_md5 (cmp ref : FingerprintTable) (pol : Policies) (jf : Bool) :
    (compareOne cmp ref pol jf).check_md5 =
      checkMd5 pol.regex_md5
        (afterLines pol.regex_linecount (afterExist pol.regex_exist (sharedFiles cmp ref))
          (checkLines pol.regex_linecount (afterExist pol.regex_exist (sharedFiles cmp ref)))) := rfl

theorem compareOne_different_md5 (cmp ref : FingerprintTable) (pol : Policies) (jf : Bool) :
    (compareOne cmp ref pol jf).different_md5 =
      differentMd5 pol.regex_md5 cmp ref
        (checkMd5 pol.regex_md5
          (afterLines pol.regex_linecount (afterExist pol.regex_exist (sharedFiles cmp ref))
            (checkLines pol.regex_linecount (afterExist pol.regex_exist (sharedFiles cmp ref))))) := rfl

theorem compareOne_same_md5 (cmp ref : FingerprintTable) (pol : Policies) (jf : Bool) :
    (compareOne cmp ref pol jf).same_md5 =
      sameMd5 pol.regex_md5 cmp ref
        (checkMd5 pol.regex_md5
          (afterLines pol.regex_linecount (afterExist pol.regex_exist (sharedFiles cmp ref))
            (checkLines pol.regex_linecount (afterExist pol.regex_exist (sharedFiles cmp ref))))) := rfl

theorem compareOne_unclassified (cmp ref : FingerprintTable) (pol : Policies) (jf : Bool) :
    (compareOne cmp ref pol jf).unclassified =
      afterLines pol.regex_linecount (afterExist pol.regex_exist (sharedFiles cmp ref))
          (checkLines pol.regex_linecount (afterExist pol.regex_exist (sharedFiles cmp ref))) \
        checkMd5 pol.regex_md5
          (afterLines pol.regex_linecount (afterExist pol.regex_exist (sharedFiles cmp ref))
            (checkLines pol.regex_linecount (afterExist pol.regex_exist (sharedFiles cmp ref)))) := rfl

theorem compareOne_job_finished (cmp ref : FingerprintTable) (pol : Policies) (jf : Bool) :
    (compareOne cmp ref pol jf).job_finished = jf := rfl

theorem compareOne_status (cmp ref : FingerprintTable) (pol : Policies) (jf : Bool) :
    (compareOne cmp ref pol jf).status =
      verdictStatus jf (compareOne cmp ref pol jf).missing (compareOne cmp ref pol jf).extra
        (compareOne cmp ref pol jf).different_md5 (compareOne cmp ref pol jf).different_lines := rfl

theorem mem_compareOne_same_exist (cmp ref : FingerprintTable) (pol : Policies)
    (jf : Bool) (p : String) :
    p ∈ (compareOne cmp ref pol jf).same_exist ↔
      p ∈ sharedFiles cmp ref ∧ policyMatch pol.regex_exist p = true := by
  rw [compareOne_same_exist, mem_sameExist]

theorem mem_compareOne_check_lines (cmp ref : FingerprintTable) (pol : Policies)
    (jf : Bool) (p : String) :
    p ∈ (compareOne cmp ref pol jf).check_lines ↔
      p ∈ sharedFiles cmp ref ∧ policyMatch pol.regex_exist p = false ∧
        policyMatch pol.regex_linecount p = true := by
  rw [compareOne_check_lines, mem_checkLines, mem_afterExist, and_assoc]

theorem mem_compareOne_different_lines (cmp ref : FingerprintTable) (pol : Policies)
    (jf : Bool) (p : String) :
    p ∈ (compareOne cmp ref pol jf).different_lines ↔
      p ∈ sharedFiles cmp ref ∧ policyMatch pol.regex_exist p = false ∧
        policyMatch pol.regex_linecount p = true ∧
        pandasEq (cmp.data p).nlines (ref.data p).nlines = false := by
  rw [compareOne_different_lines, mem_differentLines, mem_checkLines, mem_afterExist]
  tauto

theorem mem_compareOne_same_lines (cmp ref : FingerprintTable) (pol : Policies)
    (jf : Bool) (p : String) :
    p ∈ (compareOne cmp ref pol jf).same_lines ↔
      p ∈ sharedFiles cmp ref ∧ policyMatch pol.regex_exist p = false ∧
        policyMatch pol.regex_linecount p = true ∧
        pandasEq (cmp.data p).nlines (ref.data p).nlines = true := by
  rw [compareOne_same_lines, mem_sameLines, mem_checkLines, mem_afterExist]
  tauto

theorem mem_compareOne_check_md5 (cmp ref : FingerprintTable) (pol : Policies)
    (jf : Bool) (p : String) :
    p ∈ (compareOne cmp ref pol jf).check_md5 ↔
      p ∈ sharedFiles cmp ref ∧ policyMatch pol.regex_exist p = false ∧
        policyMatch pol.regex_linecount p = false ∧
        policyMatch pol.regex_md5 p = true := by
  rw [compareOne_check_md5, mem_checkMd5, mem_afterLines, mem_afterExist]
  tauto

theorem mem_compareOne_different_md5 (cmp ref : FingerprintTable) (pol : Policies)
    (jf : Bool) (p : String) :
    p ∈ (compareOne cmp ref pol jf).different_md5 ↔
      p ∈ sharedFiles cmp ref ∧ policyMatch pol.regex_exist p = false ∧
        policyMatch pol.regex_linecount p = false ∧
        policyMatch pol.regex_md5 p = true ∧
        pandasEq (cmp.data p).md5 (ref.data p).md5 = false := by
  rw [compareOne_different_md5, mem_differentMd5, mem_checkMd5, mem_afterLines,
    mem_afterExist]
  tauto

theorem mem_compareOne_same_md5 (cmp ref : FingerprintTable) (pol : Policies)
    (jf : Bool) (p : String) :
    p ∈ (compareOne cmp ref pol jf).same_md5 ↔
      p ∈ sharedFiles cmp ref ∧ policyMatch pol.regex_exist p = false ∧
        policyMatch pol.regex_linecount p = false ∧
        policyMatch pol.regex_md5 p = true ∧
        pandasEq (cmp.data p).md5 (ref.data p).md5 = true := by
  rw [compareOne_same_md5, mem_sameMd5, mem_checkMd5, mem_afterLines, mem_afterExist]
  tauto

theorem mem_compareOne_unclassified (cmp ref : FingerprintTable) (pol : Policies)
    (jf : Bool) (p : String) :
    p ∈ (compareOne cmp ref pol jf).unclassified ↔
      p ∈ sharedFiles cmp ref ∧ policyMatch pol.regex_exist p = false ∧
        policyMatch pol.regex_linecount p = false ∧
        policyMatch pol.regex_md5 p = false := by
  rw [compareOne_unclassified, Finset.mem_sdiff, mem_checkMd5, mem_afterLines,
    mem_afterExist]
  cases hM : policyMatch pol.regex_md5 p <;> tauto

theorem pandasEq_true_iff {α : Type} [DecidableEq α] (a b : Option α) :
    pandasEq a b = true ↔ ∃ x, a = some x ∧ b = some x := by
  cases a <;> cases b <;> simp [pandasEq]
  exact eq_comm

theorem verdictStatus_ok_iff (jf : Bool) (m e dm dl : Finset String) :
    verdictStatus jf m e dm dl = "OK" ↔
      jf = true ∧ m = ∅ ∧ e = ∅ ∧ dm = ∅ ∧ dl = ∅ := by
  have hne : ("FAIL" : String) ≠ "OK" := by decide
  unfold verdictStatus
  by_cases hb : (jf && (m.card + e.card + dm.card + dl.card == 0)) = true
  · rw [if_pos hb]
    obtain ⟨hj, hc⟩ := Bool.and_eq_true_iff.mp hb
    have hc0 : m.card + e.card + dm.card + dl.card = 0 := by simpa using hc
    have hm : m = ∅ := Finset.card_eq_zero.mp (by omega)
    have he : e = ∅ := Finset.card_eq_zero.mp (by omega)
    have hdm : dm = ∅ := Finset.card_eq_zero.mp (by omega)
    have hdl : dl = ∅ := Finset.card_eq_zero.mp (by omega)
    simp [hj, hm, he, hdm, hdl]
  · rw [if_neg hb]
    constructor
    · intro h
      exact absurd h hne
    · rintro ⟨hj, hm, he, hdm, hdl⟩
      subst hj hm he hdm hdl
      simp at hb

theorem verdictStatus_ok_or_fail (jf : Bool) (m e dm dl : Finset String) :
    verdictStatus jf m e dm dl = "OK" ∨ verdictStatus jf m e dm dl = "FAIL" := by
  unfold verdictStatus
  split
  · exact Or.inl rfl
  · exact Or.inr rfl

theorem verdictStatus_fail_of_nonempty_dm (jf : Bool) (m e dm dl : Finset String)
    (h : dm ≠ ∅) : verdictStatus jf m e dm dl = "FAIL" := by
  unfold verdictStatus
  have hc : dm.card ≠ 0 := fun h0 => h (Finset.card_eq_zero.mp h0)
  have : (m.card + e.card + dm.card + dl.card == 0) = false := by
    simp only [beq_eq_false_iff_ne, ne_eq]
    omega
  rw [this]
  simp

theorem foldl_and_eq_all (f : String → Bool) (b : Bool) (ls : List String) :
    ls.foldl (fun acc x => acc && f x) b = (b && ls.all f) := by
  induction ls generalizing b with
  | nil => simp
  | cons h t ih => simp [List.foldl_cons, ih, Bool.and_assoc]

theorem jobFinished_eq_all (f : String → Bool) (ls : List String) :
    jobFinished f ls = ls.all f := by
  unfold jobFinished
  rw [foldl_and_eq_all]
  simp

/-- C1: for every test, the verdict status is OK iff job_finished is true
and the sets missing, extra, different_md5 and different_lines are all
empty; in every other case the status is FAIL (lines 537-541). -/
theorem C1_status_ok_iff (cmp ref : FingerprintTable) (pol : Policies) (jf : Bool) :
    ((compareOne cmp ref pol jf).status = "OK" ↔
      (compareOne cmp ref pol jf).job_finished = true ∧
        (compareOne cmp ref pol jf).missing = ∅ ∧
        (compareOne cmp ref pol jf).extra = ∅ ∧
        (compareOne cmp ref pol jf).different_md5 = ∅ ∧
        (compareOne cmp ref pol jf).different_lines = ∅) ∧
    ((compareOne cmp ref pol jf).status = "OK" ∨
      (compareOne cmp ref pol jf).status = "FAIL") := by
  rw [compareOne_status, compareOne_job_finished]
  exact ⟨verdictStatus_ok_iff _ _ _ _ _, verdictStatus_ok_or_fail _ _ _ _ _⟩

/-- C2: the three policies are applied in the fixed order existence, then
linecount, then checksum, and a shared path matching more than one policy
is graded only under the first one it matches; in particular a path
matching both the existence policy and the checksum policy lands in
same_exist and never in the checksum (or linecount) sets
(lines 490-531). -/
theorem C2_policy_precedence (cmp ref : FingerprintTable) (pol : Policies) (jf : Bool)
    (p : String) (hp : p ∈ (compareOne cmp ref pol jf).shared) :
    (policyMatch pol.regex_exist p = true →
      p ∈ (compareOne cmp ref pol jf).same_exist ∧
      p ∉ (compareOne cmp ref pol jf).check_lines ∧
      p ∉ (compareOne cmp ref pol jf).same_lines ∧
      p ∉ (compareOne cmp ref pol jf).different_lines ∧
      p ∉ (compareOne cmp ref pol jf).check_md5 ∧
      p ∉ (compareOne cmp ref pol jf).same_md5 ∧
      p ∉ (compareOne cmp ref pol jf).different_md5 ∧
      p ∉ (compareOne cmp ref pol jf).unclassified) ∧
    (policyMatch pol.regex_exist p = false →
      policyMatch pol.regex_linecount p = true →
      p ∈ (compareOne cmp ref pol jf).check_lines ∧
      p ∉ (compareOne cmp ref pol jf).same_exist ∧
      p ∉ (compareOne cmp ref pol jf).check_md5 ∧
      p ∉ (compareOne cmp ref pol jf).same_md5 ∧
      p ∉ (compareOne cmp ref pol jf).different_md5 ∧
      p ∉ (compareOne cmp ref pol jf).unclassified) ∧
    (policyMatch pol.regex_exist p = false →
      policyMatch pol.regex_linecount p = false →
      policyMatch pol.regex_md5 p = true →
      p ∈ (compareOne cmp ref pol jf).check_md5 ∧
      p ∉ (compareOne cmp ref pol jf).same_exist ∧
      p ∉ (compareOne cmp ref pol jf).check_lines ∧
      p ∉ (compareOne cmp ref pol jf).same_lines ∧
      p ∉ (compareOne cmp ref pol jf).different_lines ∧
      p ∉ (compareOne cmp ref pol jf).unclassified) := by
  rw [compareOne_shared] at hp
  refine ⟨fun hE => ?_, fun hE hL => ?_, fun hE hL hM => ?_⟩
  · simp [mem_compareOne_same_exist, mem_compareOne_check_lines,
      mem_compareOne_same_lines, mem_compareOne_different_lines,
      mem_compareOne_check_md5, mem_compareOne_same_md5,
      mem_compareOne_different_md5, mem_compareOne_unclassified, hp, hE]
  · simp [mem_compareOne_same_exist, mem_compareOne_check_lines,
      mem_compareOne_check_md5, mem_compareOne_same_md5,
      mem_compareOne_different_md5, mem_compareOne_unclassified, hp, hE, hL]
  · simp [mem_compareOne_same_exist, mem_compareOne_check_lines,
      mem_compareOne_same_lines, mem_compareOne_different_lines,
      mem_compareOne_check_md5, mem_compareOne_unclassified, hp, hE, hL, hM]

/-- C3: for every test, the set of shared paths equals the union of the
six sets same_exist, same_lines, different_lines, same_md5, different_md5
and unclassified, and these six sets are pairwise disjoint
(lines 486-531). -/
theorem C3_partition (cmp ref : FingerprintTable) (pol : Policies) (jf : Bool) :
    ((compareOne cmp ref pol jf).same_exist ∪ (compareOne cmp ref pol jf).same_lines ∪
        (compareOne cmp ref pol jf).different_lines ∪
        (compareOne cmp ref pol jf).same_md5 ∪ (compareOne cmp ref pol jf).different_md5 ∪
        (compareOne cmp ref pol jf).unclassified =
      (compareOne cmp ref pol jf).shared) ∧
    List.Pairwise Disjoint
      [(compareOne cmp ref pol jf).same_exist, (compareOne cmp ref pol jf).same_lines,
        (compareOne cmp ref pol jf).different_lines, (compareOne cmp ref pol jf).same_md5,
        (compareOne cmp ref pol jf).different_md5,
        (compareOne cmp ref pol jf).unclassified] := by
  constructor
  · ext p
    rw [compareOne_shared]
    simp only [Finset.mem_union, mem_compareOne_same_exist, mem_compareOne_same_lines,
      mem_compareOne_different_lines, mem_compareOne_same_md5,
      mem_compareOne_different_md5, mem_compareOne_unclassified]
    cases hE : policyMatch pol.regex_exist p <;>
      cases hL : policyMatch pol.regex_linecount p <;>
        cases hM : policyMatch pol.regex_md5 p <;>
          cases hN : pandasEq (cmp.data p).nlines (ref.data p).nlines <;>
            cases hD : pandasEq (cmp.data p).md5 (ref.data p).md5 <;>
              simp
  · refine List.Pairwise.cons ?_ (List.Pairwise.cons ?_ (List.Pairwise.cons ?_
      (List.Pairwise.cons ?_ (List.Pairwise.cons ?_
        (List.Pairwise.cons (fun b hb => absurd hb (List.not_mem_nil b))
          List.Pairwise.nil)))))
    all_goals
      intro B hB
      fin_cases hB <;>
        (refine Finset.disjoint_left.mpr ?_
         intro p hp hq
         simp only [mem_compareOne_same_exist, mem_compareOne_same_lines,
           mem_compareOne_different_lines, mem_compareOne_same_md5,
           mem_compareOne_different_md5, mem_compareOne_unclassified] at hp hq
         simp_all)

/-- C6: a call of the metric collector dispatch with an absent or empty
suffix list produces the empty-table action (an empty output file is
touched), does not fail and does not scan the filesystem; with a nonempty
suffix list it runs the filesystem scan (lines 316-355). -/
theorem C6_empty_metric_list (metric : String) :
    compute_file_metrics metric none = MetricAction.touchEmpty ∧
    compute_file_metrics metric (some []) = MetricAction.touchEmpty ∧
    ∀ s : List String,
      (compute_file_metrics metric (some s) = MetricAction.touchEmpty ↔ s = []) := by
  refine ⟨rfl, rfl, fun s => ?_⟩
  cases s with
  | nil => simp [compute_file_metrics]
  | cons a t => simp [compute_file_metrics]

/-- C10: for every test, job_finished is the conjunction of the completion
check over every log file matching the track glob; in particular, when the
log file list is empty, the conjunction is vacuously true and job_finished
is true (lines 453-458). -/
theorem C10_job_finished_fold (isComplete : String → Bool) (logfiles : List String) :
    jobFinished isComplete logfiles = logfiles.all isComplete ∧
    jobFinished isComplete [] = true :=
  ⟨jobFinished_eq_all isComplete logfiles, rfl⟩

/-- A table with no rows, for loop-level scenarios. -/
def trivialTable : FingerprintTable :=
  ⟨∅, fun _ => ⟨none, none⟩⟩

/-- A configuration with all three policies absent. -/
def noPolicies : Policies :=
  ⟨none, none, none⟩

/-- A test whose reference snapshot file is absent. -/
def tMissingRef : TestCase :=
  ⟨"test_a", [], false, trivialTable, trivialTable, noPolicies⟩

/-- A sibling test, listed after `tMissingRef`, whose reference exists. -/
def tWithRef : TestCase :=
  ⟨"test_b", [], true, trivialTable, trivialTable, noPolicies⟩

/-- C4, counterexample: run alone, the sibling test with a reference
produces its output row; run after a test whose reference snapshot is
absent, the raised error aborts the loop and the sibling produces no row,
refuting the part of the claim that says the failure does not abort the
reconciliation of sibling tests in the same run. -/
theorem C4_counterexample :
    (compareCheckSumsLoop (fun _ => true) [tWithRef]).1.length = 1 ∧
    (compareCheckSumsLoop (fun _ => true) [tMissingRef, tWithRef]).1.length = 0 ∧
    (compareCheckSumsLoop (fun _ => true) [tMissingRef, tWithRef]).2 =
      some "no reference data defined for test_a" :=
  ⟨rfl, rfl, rfl⟩

/-- C4, amended: when the reference snapshot file for a test is absent,
reconciliation fails fast with the configuration error
`no reference data defined for <track>` and never silently treats the
missing reference as a pass; the raised error propagates out of the loop,
so the failing test and every sibling test after it in the same run
produce no result row (siblings before it were already processed)
(lines 449-476). -/
theorem C4_missing_reference (isComplete : String → Bool) (t : TestCase)
    (rest : List TestCase) (h : t.refExists = false) :
    compareCheckSumsLoop isComplete (t :: rest) =
      ([], some ("no reference data defined for " ++ t.track)) := by
  unfold compareCheckSumsLoop
  rw [h]
  simp

/-- C4, witness: the amended theorem evaluated on the concrete failing test
followed by a healthy sibling. -/
theorem C4_missing_reference_witness :
    compareCheckSumsLoop (fun _ => true) [tMissingRef, tWithRef] =
      ([], some ("no reference data defined for " ++ "test_a")) :=
  C4_missing_reference (fun _ => true) tMissingRef [tWithRef] rfl

/-- A one-row table whose md5 cell is recorded. -/
def tableC5 : FingerprintTable :=
  ⟨{"a.tsv"}, fun _ => ⟨some "x", none⟩⟩

/-- A policy set grading `.tsv` paths under the checksum policy. -/
def polC5 : Policies :=
  ⟨none, none, some [".tsv"]⟩

/-- A test whose glob over `<track>*.log` found no log file at all. -/
def tNoLogs : TestCase :=
  ⟨"test_c", [], true, tableC5, tableC5, polC5⟩

/-- C5, counterexample: for a test whose run log stream is absent (the glob
found no log file), the loop body leaves job_finished at its initial True
even under a completion check that accepts nothing, and the verdict on
matching tables is OK, refuting the claim that an absent log stream forces
job_finished false and a FAIL verdict. -/
theorem C5_counterexample :
    (processTest (fun _ => false) tNoLogs).job_finished = true ∧
    (processTest (fun _ => false) tNoLogs).status = "OK" := by
  constructor
  · rfl
  · decide

/-- C5, amended: when some log file matching the track glob exists and
fails the completion check (its completion marker is absent or
unparsable), job_finished is false and the verdict status is FAIL even
when every file comparison matches; but when no matching log file exists,
job_finished stays vacuously true (lines 453-458, 537-541). -/
theorem C5_incomplete_log (isComplete : String → Bool) (t : TestCase) (lf : String)
    (h1 : lf ∈ t.logfiles) (h2 : isComplete lf = false) :
    (processTest isComplete t).job_finished = false ∧
    (processTest isComplete t).status = "FAIL" := by
  have hjf : jobFinished isComplete t.logfiles = false := by
    rw [jobFinished_eq_all]
    rcases hall : t.logfiles.all isComplete with _ | _
    · rfl
    · rw [List.all_eq_true] at hall
      exact absurd (hall lf h1) (by simp [h2])
  have hpt : processTest isComplete t = compareOne t.cmpTable t.refTable t.pol false := by
    unfold processTest
    rw [hjf]
  rw [hpt]
  exact ⟨rfl, rfl⟩

/-- A test with a single log file that fails the completion check. -/
def tBadLog : TestCase :=
  ⟨"test_d", ["test_d.log"], true, tableC5, tableC5, polC5⟩

/-- C5, witness: the amended theorem evaluated on the concrete test whose
only log file fails the completion check. -/
theorem C5_incomplete_log_witness :
    (processTest (fun _ => false) tBadLog).job_finished = false ∧
    (processTest (fun _ => false) tBadLog).status = "FAIL" :=
  C5_incomplete_log (fun _ => false) tBadLog "test_d.log" (by decide) rfl

theorem pandasEq_self_of_ne_none {α : Type} [DecidableEq α] (a : Option α)
    (h : a ≠ none) : pandasEq a a = true := by
  cases a with
  | none => exact absurd rfl h
  | some x => simp [pandasEq]

/-- A table containing a path that the line-count policy grades although no
line count was recorded for it (its fingerprint has only an md5 cell), plus
a shared path matching no policy at all. -/
def tableC7 : FingerprintTable :=
  ⟨{"a.tsv.backup", "b.dat"},
    fun p => if p = "a.tsv.backup" then ⟨some "x", none⟩ else ⟨some "y", some 3⟩⟩

/-- Policies for the C7 counterexample: line counting covers `.tsv`
fragments, checksums cover `.backup` fragments, so `a.tsv.backup` is graded
under the line-count policy first. -/
def polC7 : Policies :=
  ⟨none, some [".tsv"], some [".backup"]⟩

/-- C7, counterexample: reconciling this table against itself yields empty
missing and extra sets, yet the line-count-graded path with no recorded
line count lands in different_lines (a pandas NaN cell never compares
equal, not even to itself), the shared path matching no policy lands in no
same bucket, every same bucket is empty, and the verdict is FAIL - refuting
the claim that self-reconciliation puts every shared path in a same bucket
with both different sets empty. -/
theorem C7_counterexample :
    (compareOne tableC7 tableC7 polC7 true).missing = ∅ ∧
    (compareOne tableC7 tableC7 polC7 true).extra = ∅ ∧
    (compareOne tableC7 tableC7 polC7 true).different_lines = {"a.tsv.backup"} ∧
    (compareOne tableC7 tableC7 polC7 true).same_exist = ∅ ∧
    (compareOne tableC7 tableC7 polC7 true).same_lines = ∅ ∧
    (compareOne tableC7 tableC7 polC7 true).same_md5 = ∅ ∧
    (compareOne tableC7 tableC7 polC7 true).unclassified = {"b.dat"} ∧
    (compareOne tableC7 tableC7 polC7 true).status = "FAIL" := by
  decide

/-- C7, amended: reconciling a table against itself yields empty missing
and extra sets and, provided every path graded under the line-count policy
has a recorded line count and every path graded under the checksum policy
has a recorded checksum, both different sets are empty, every shared path
lands in a same bucket or in the unclassified residue, and the verdict
with job_finished true is OK (lines 486-541). -/
theorem C7_self_reconcile (T : FingerprintTable) (pol : Policies)
    (hl : ∀ p ∈ (compareOne T T pol true).check_lines, (T.data p).nlines ≠ none)
    (hm : ∀ p ∈ (compareOne T T pol true).check_md5, (T.data p).md5 ≠ none) :
    (compareOne T T pol true).missing = ∅ ∧
    (compareOne T T pol true).extra = ∅ ∧
    (compareOne T T pol true).different_lines = ∅ ∧
    (compareOne T T pol true).different_md5 = ∅ ∧
    (compareOne T T pol true).same_exist ∪ (compareOne T T pol true).same_lines ∪
        (compareOne T T pol true).same_md5 ∪ (compareOne T T pol true).unclassified =
      (compareOne T T pol true).shared ∧
    (compareOne T T pol true).status = "OK" := by
  have hmiss : (compareOne T T pol true).missing = ∅ := by
    rw [compareOne_missing]
    exact Finset.sdiff_self T.keys
  have hextra : (compareOne T T pol true).extra = ∅ := by
    rw [compareOne_extra]
    exact Finset.sdiff_self T.keys
  have hdl : (compareOne T T pol true).different_lines = ∅ := by
    ext p
    simp only [Finset.not_mem_empty, iff_false]
    intro hmem
    rw [mem_compareOne_different_lines] at hmem
    obtain ⟨hsh, hE, hL, hne⟩ := hmem
    have hk : p ∈ (compareOne T T pol true).check_lines := by
      rw [mem_compareOne_check_lines]
      exact ⟨hsh, hE, hL⟩
    have heq := pandasEq_self_of_ne_none (T.data p).nlines (hl p hk)
    rw [heq] at hne
    exact Bool.noConfusion hne
  have hdm : (compareOne T T pol true).different_md5 = ∅ := by
    ext p
    simp only [Finset.not_mem_empty, iff_false]
    intro hmem
    rw [mem_compareOne_different_md5] at hmem
    obtain ⟨hsh, hE, hL, hM, hne⟩ := hmem
    have hk : p ∈ (compareOne T T pol true).check_md5 := by
      rw [mem_compareOne_check_md5]
      exact ⟨hsh, hE, hL, hM⟩
    have heq := pandasEq_self_of_ne_none (T.data p).md5 (hm p hk)
    rw [heq] at hne
    exact Bool.noConfusion hne
  have huni : (compareOne T T pol true).same_exist ∪ (compareOne T T pol true).same_lines ∪
      (compareOne T T pol true).same_md5 ∪ (compareOne T T pol true).unclassified =
      (compareOne T T pol true).shared := by
    ext p
    rw [compareOne_shared]
    simp only [Finset.mem_union, mem_compareOne_same_exist, mem_compareOne_same_lines,
      mem_compareOne_same_md5, mem_compareOne_unclassified]
    constructor
    · rintro (((⟨h, -⟩ | ⟨h, -⟩) | ⟨h, -⟩) | ⟨h, -⟩) <;> exact h
    · intro hsh
      by_cases hE : policyMatch pol.regex_exist p = true
      · exact Or.inl (Or.inl (Or.inl ⟨hsh, hE⟩))
      · have hE2 : policyMatch pol.regex_exist p = false := by simpa using hE
        by_cases hL : policyMatch pol.regex_linecount p = true
        · refine Or.inl (Or.inl (Or.inr ⟨hsh, hE2, hL, ?_⟩))
          refine pandasEq_self_of_ne_none _ (hl p ?_)
          rw [mem_compareOne_check_lines]
          exact ⟨hsh, hE2, hL⟩
        · have hL2 : policyMatch pol.regex_linecount p = false := by simpa using hL
          by_cases hM : policyMatch pol.regex_md5 p = true
          · refine Or.inl (Or.inr ⟨hsh, hE2, hL2, hM, ?_⟩)
            refine pandasEq_self_of_ne_none _ (hm p ?_)
            rw [mem_compareOne_check_md5]
            exact ⟨hsh, hE2, hL2, hM⟩
          · have hM2 : policyMatch pol.regex_md5 p = false := by simpa using hM
            exact Or.inr ⟨hsh, hE2, hL2, hM2⟩
  have hst : (compareOne T T pol true).status = "OK" := by
    rw [compareOne_status]
    exact (verdictStatus_ok_iff _ _ _ _ _).mpr ⟨rfl, hmiss, hextra, hdm, hdl⟩
  exact ⟨hmiss, hextra, hdl, hdm, huni, hst⟩

/-- A table whose every row records both metrics, for the C7 witness. -/
def tableC7w : FingerprintTable :=
  ⟨{"a.tsv", "b.bam"},
    fun p => if p = "a.tsv" then ⟨some "x", some 10⟩ else ⟨some "y", some 5⟩⟩

/-- Policies for the C7 witness: line counting covers `.tsv`, checksums
cover `.bam`. -/
def polC7w : Policies :=
  ⟨none, some [".tsv"], some [".bam"]⟩

/-- C7, witness: the amended theorem evaluated on a concrete table whose
graded paths all carry the graded metric. -/
theorem C7_self_reconcile_witness :
    (compareOne tableC7w tableC7w polC7w true).missing = ∅ ∧
    (compareOne tableC7w tableC7w polC7w true).extra = ∅ ∧
    (compareOne tableC7w tableC7w polC7w true).different_lines = ∅ ∧
    (compareOne tableC7w tableC7w polC7w true).different_md5 = ∅ ∧
    (compareOne tableC7w tableC7w polC7w true).same_exist ∪
        (compareOne tableC7w tableC7w polC7w true).same_lines ∪
        (compareOne tableC7w tableC7w polC7w true).same_md5 ∪
        (compareOne tableC7w tableC7w polC7w true).unclassified =
      (compareOne tableC7w tableC7w polC7w true).shared ∧
    (compareOne tableC7w tableC7w polC7w true).status = "OK" :=
  C7_self_reconcile tableC7w polC7w (by decide) (by decide)

/-- C8: for a current/reference pair reconciling to OK with job_finished
true, changing the stored checksum of one checksum-policy-graded shared
path to a different value (leaving everything else identical) flips the
status from OK to FAIL, and that path appears in different_md5
(lines 521-541). -/
theorem C8_checksum_flip (cmp ref : FingerprintTable) (pol : Policies) (p : String)
    (v : String)
    (hok : (compareOne cmp ref pol true).status = "OK")
    (hp : p ∈ (compareOne cmp ref pol true).check_md5)
    (hv : (cmp.data p).md5 ≠ some v) :
    (compareOne (setMd5 cmp p (some v)) ref pol true).status = "FAIL" ∧
    p ∈ (compareOne (setMd5 cmp p (some v)) ref pol true).different_md5 := by
  rw [compareOne_status] at hok
  obtain ⟨-, hmiss, hextra, hdm, hdl⟩ := (verdictStatus_ok_iff _ _ _ _ _).mp hok
  obtain ⟨hsh, hE, hL, hM⟩ := (mem_compareOne_check_md5 cmp ref pol true p).mp hp
  have hnotmem : p ∉ (compareOne cmp ref pol true).different_md5 := by
    rw [hdm]
    exact Finset.not_mem_empty p
  have heq : pandasEq (cmp.data p).md5 (ref.data p).md5 = true := by
    by_contra hcon
    have hfalse : pandasEq (cmp.data p).md5 (ref.data p).md5 = false := by
      simpa using hcon
    exact hnotmem ((mem_compareOne_different_md5 cmp ref pol true p).mpr
      ⟨hsh, hE, hL, hM, hfalse⟩)
  obtain ⟨w, hcw, hrw⟩ := (pandasEq_true_iff _ _).mp heq
  have hwv : ¬(v = w) := by
    intro hvw
    apply hv
    rw [hcw, hvw]
  have hmemnew : p ∈ (compareOne (setMd5 cmp p (some v)) ref pol true).different_md5 := by
    rw [mem_compareOne_different_md5]
    refine ⟨hsh, hE, hL, hM, ?_⟩
    have hnewmd5 : ((setMd5 cmp p (some v)).data p).md5 = some v := by
      simp [setMd5]
    rw [hnewmd5, hrw]
    simp [pandasEq]
    exact hwv
  have hfail : (compareOne (setMd5 cmp p (some v)) ref pol true).status = "FAIL" := by
    rw [compareOne_status]
    exact verdictStatus_fail_of_nonempty_dm _ _ _ _ _ (Finset.ne_empty_of_mem hmemnew)
  exact ⟨hfail, hmemnew⟩

/-- A one-row table for the C8 witness, with both metrics recorded. -/
def tableC8 : FingerprintTable :=
  ⟨{"a.tsv"}, fun _ => ⟨some "x", some 2⟩⟩

/-- Policies for the C8 witness: checksums cover `.tsv`. -/
def polC8 : Policies :=
  ⟨none, none, some [".tsv"]⟩

/-- C8, witness: the theorem evaluated on a concrete OK pair with the
checksum of the single graded path changed from x to y. -/
theorem C8_checksum_flip_witness :
    (compareOne (setMd5 tableC8 "a.tsv" (some "y")) tableC8 polC8 true).status = "FAIL" ∧
    "a.tsv" ∈ (compareOne (setMd5 tableC8 "a.tsv" (some "y")) tableC8 polC8
      true).different_md5 :=
  C8_checksum_flip tableC8 tableC8 polC8 "a.tsv" "y" (by decide) (by decide) (by decide)

/-- C9: two files whose contents differ only in lines beginning with the
designated comment marker (so their comment-stripped contents coincide)
receive the same checksum: comment lines are removed before hashing.
Modelled from the spec, since the hashing helper is outside these
sources. -/
theorem C9_comment_insensitive (marker : String) (f1 f2 : List String)
    (h : stripComments marker f1 = stripComments marker f2) :
    fileChecksum marker f1 = fileChecksum marker f2 := by
  unfold fileChecksum
  rw [h]

/-- C9, witness: two concrete files differing only in their
marker-prefixed comment lines hash identically. -/
theorem C9_comment_insensitive_witness :
    fileChecksum "#" ["# version 1", "data line"] =
      fileChecksum "#" ["# version 2", "data line", "# trailing note"] :=
  C9_comment_insensitive "#" ["# version 1", "data line"]
    ["# version 2", "data line", "# trailing note"] (by decide)

/-- A one-row table for the C2 witness. -/
def tableC2 : FingerprintTable :=
  ⟨{"a.tsv"}, fun _ => ⟨some "x", some 1⟩⟩

/-- Policies for the C2 witness: the path matches both the existence policy
and the checksum policy. -/
def polC2 : Policies :=
  ⟨some [".tsv"], none, some [".tsv"]⟩

/-- C2, witness: the precedence theorem evaluated on a concrete shared path
matching both the existence and the checksum policy; it is classified under
existence only and appears in no checksum set. -/
theorem C2_policy_precedence_witness :
    "a.tsv" ∈ (compareOne tableC2 tableC2 polC2 true).same_exist ∧
    "a.tsv" ∉ (compareOne tableC2 tableC2 polC2 true).same_md5 ∧
    "a.tsv" ∉ (compareOne tableC2 tableC2 polC2 true).different_md5 := by
  have h := (C2_policy_precedence tableC2 tableC2 polC2 true "a.tsv" (by decide)).1
    (by decide)
  exact ⟨h.1, h.2.2.2.2.2.1, h.2.2.2.2.2.2.1⟩
